import Mathlib

/-!
Shallow embedding of the xCodex hook-event protocol layer:

* `XcodexHooksModels` embeds
  `codex-rs/common/src/hooks_sdk_assets/python/xcodex_hooks_models.py`
  (the tolerant event binder `parse_hook_event` and its coercion helpers).
* `HookHost` embeds
  `codex-rs/common/src/hooks_sdk_assets/python/hook_host.py`
  (the envelope resolver `_resolve_event_payload` and the dispatch loop
  inside `main`).
* `XcodexHooks` embeds
  `codex-rs/common/src/hooks_sdk_assets/python/xcodex_hooks.py`
  (`read_payload`).

Python values appearing in JSON payloads are modelled by `JValue`
(JSON numbers are modelled as integers; no claim exercises floats).
Python dicts are modelled as insertion-ordered association lists.
External library calls are explicit parameters: `json.loads` becomes a
`jsonParse : String → Except PyErr JValue` argument and the filesystem
read (`pathlib.Path(p).read_text()`) becomes `fs : String → Option String`
(`none` models a missing/unreadable file).  A Python exception is an
`Except.error` carrying a `PyErr`.
-/

/-- A Python runtime exception class (only the distinctions the embedded
code can observe). -/
inductive PyErr where
  | valueError
  | typeError
  | attributeError
  | fileNotFound
  | jsonDecodeError
  deriving DecidableEq, Repr

/-- A JSON value as produced by `json.loads` (numbers restricted to
integers; `null` doubles as Python `None`, which is how an absent
`dict.get` key surfaces). -/
inductive JValue where
  | null
  | bool (b : Bool)
  | int (n : Int)
  | str (s : String)
  | arr (items : List JValue)
  | obj (entries : List (String × JValue))

/-- A Python dict with string keys: insertion-ordered association list. -/
abbrev PyDict := List (String × JValue)

/-- Python truthiness (`bool(v)`) on JSON values. -/
def truthy : JValue → Bool
  | .null => false
  | .bool b => b
  | .int n => n ≠ 0
  | .str s => !s.isEmpty
  | .arr items => !items.isEmpty
  | .obj entries => !entries.isEmpty

/-- Python `a or b`: `a` if truthy, else `b`. -/
def pyOr (a b : JValue) : JValue := if truthy a then a else b

/-- `d.get(k)`: value of the first matching key, Python `None` when absent. -/
def dictGet (d : PyDict) (k : String) : JValue :=
  match d.find? (fun kv => kv.fst == k) with
  | some kv => kv.snd
  | none => .null

/-- `k in d` on a Python dict: key membership. -/
def hasKey (d : PyDict) (k : String) : Bool :=
  (d.find? (fun kv => kv.fst == k)).isSome

mutual
/-- Python `repr` of a JSON value (string escaping simplified to plain
single-quote wrapping, which no claim observes). -/
def pyRepr : JValue → String
  | .null => "None"
  | .bool b => if b then "True" else "False"
  | .int n => toString n
  | .str s => "\x27" ++ s ++ "\x27"
  | .arr items => "[" ++ pyReprSeq items ++ "]"
  | .obj entries => "\x7b" ++ pyReprMap entries ++ "\x7d"

/-- Comma-separated `repr`s of a Python list's elements. -/
def pyReprSeq : List JValue → String
  | [] => ""
  | [v] => pyRepr v
  | v :: vs => pyRepr v ++ ", " ++ pyReprSeq vs

/-- Comma-separated `repr`s of a Python dict's items. -/
def pyReprMap : List (String × JValue) → String
  | [] => ""
  | [(k, v)] => "\x27" ++ k ++ "\x27: " ++ pyRepr v
  | (k, v) :: kvs => "\x27" ++ k ++ "\x27: " ++ pyRepr v ++ ", " ++ pyReprMap kvs
end

/-- Python `str(v)`: strings pass through, everything else via `repr`
(`str(None) = "None"`, `str(True) = "True"`, ints in decimal). -/
def pyStr : JValue → String
  | .str s => s
  | v => pyRepr v

/-- Python `str.isspace` on the ASCII whitespace characters Python's
`strip()` removes. -/
def pyIsSpace (c : Char) : Bool :=
  c = ' ' || c = '\t' || c = '\n' || c = '\r' || c = '\x0b' || c = '\x0c'

/-- Python `s.strip()` on a character list: drop whitespace at both ends. -/
def pyStripList (cs : List Char) : List Char :=
  ((cs.dropWhile pyIsSpace).reverse.dropWhile pyIsSpace).reverse

/-- Python `s.strip()`. -/
def pyStrip (s : String) : String := String.mk (pyStripList s.toList)

/-- Python `s.lower()` (ASCII case folding). -/
def pyLower (s : String) : String := String.mk (s.toList.map Char.toLower)

/-- Whether a character list (sign already removed) is a valid Python
base-10 digit run: digits with optional single underscores strictly
between digits. -/
def pyDigitRun (cs : List Char) : Bool :=
  !cs.isEmpty
    && cs.head? ≠ some '_'
    && cs.getLast? ≠ some '_'
    && !(cs.zip (cs.drop 1)).any (fun p => p.fst = '_' && p.snd = '_')
    && (cs.filter (fun c => c ≠ '_')).all Char.isDigit

/-- Python `int(s, 10)` on a string: optional surrounding whitespace,
optional sign, then a base-10 digit run; `none` models `ValueError`. -/
def pyIntOfStr (s : String) : Option Int :=
  let cs := pyStripList s.toList
  match cs with
  | [] => none
  | c :: rest =>
    let signed : Bool × List Char :=
      if c = '-' then (true, rest) else if c = '+' then (false, rest) else (false, cs)
    if pyDigitRun signed.snd then
      let mag : Nat :=
        (signed.snd.filter (fun ch => ch ≠ '_')).foldl
          (fun acc ch => acc * 10 + (ch.toNat - 48)) 0
      some (if signed.fst then -(mag : Int) else (mag : Int))
    else none

/-- Python's `int(v)` builtin on a JSON value: raises `TypeError` on
`None`/lists/dicts and `ValueError` on non-numeric strings. -/
def pyInt : JValue → Except PyErr Int
  | .null => .error .typeError
  | .bool b => .ok (if b then 1 else 0)
  | .int n => .ok n
  | .str s =>
    match pyIntOfStr s with
    | some n => .ok n
    | none => .error .valueError
  | .arr _ => .error .typeError
  | .obj _ => .error .typeError

namespace XcodexHooksModels

/-- `_as_str`: `None → None`, strings pass through, otherwise `str(value)`
(total on JSON values, so the `except` branch is unreachable). -/
def _as_str : JValue → Option String
  | .null => none
  | .str s => some s
  | v => some (pyStr v)

/-- `_as_int`: tolerant integer coercion (`bool → 0/1`, ints pass,
numeric strings parse base 10, everything else `None`). -/
def _as_int : JValue → Option Int
  | .null => none
  | .bool b => some (if b then 1 else 0)
  | .int n => some n
  | .str s => pyIntOfStr s
  | _ => none

/-- `_as_bool`: tolerant boolean coercion with the fixed truth/false
vocabulary on strings. -/
def _as_bool : JValue → Option Bool
  | .null => none
  | .bool b => some b
  | .int n => some (n ≠ 0)
  | .str s =>
    let v := pyLower (pyStrip s)
    if v = "true" ∨ v = "1" ∨ v = "yes" ∨ v = "y" ∨ v = "on" then some true
    else if v = "false" ∨ v = "0" ∨ v = "no" ∨ v = "n" ∨ v = "off" then some false
    else none
  | _ => none

/-- `_as_str_list`: lists map elementwise through `_as_str`, dropping
elements that coerce to `None`; non-lists coerce to `None`. -/
def _as_str_list : JValue → Option (List String)
  | .null => none
  | .arr items => some (items.filterMap _as_str)
  | _ => none

/-- The per-variant named fields of the generated dataclasses
(`AgentTurnCompleteHookEvent` … `ToolCallStartedHookEvent`), plus the
`unknown` tag for `UnknownHookEvent`. -/
inductive VariantFields where
  | unknown
  | agentTurnComplete
      (cwd : Option String)
      (input_messages : Option (List String))
      (last_assistant_message : Option String)
      (thread_id : Option String)
      (turn_id : Option String)
  | approvalRequested
      (approval_policy : JValue)
      (call_id : Option String)
      (command : Option (List String))
      (cwd : Option String)
      (grant_root : Option String)
      (kind : Option String)
      (message : Option String)
      (paths : Option (List String))
      (proposed_execpolicy_amendment : Option (List String))
      (reason : Option String)
      (request_id : Option String)
      (sandbox_policy : JValue)
      (server_name : Option String)
      (thread_id : Option String)
      (turn_id : Option String)
  | modelRequestStarted
      (attempt : Option Int)
      (cwd : Option String)
      (has_output_schema : Option Bool)
      (model : Option String)
      (model_request_id : Option String)
      (parallel_tool_calls : Option Bool)
      (prompt_input_item_count : Option Int)
      (provider : Option String)
      (thread_id : Option String)
      (tool_count : Option Int)
      (turn_id : Option String)
  | modelResponseCompleted
      (attempt : Option Int)
      (cwd : Option String)
      (model_request_id : Option String)
      (needs_follow_up : Option Bool)
      (response_id : Option String)
      (thread_id : Option String)
      (token_usage : JValue)
      (turn_id : Option String)
  | sessionEnd
      (cwd : Option String)
      (session_source : Option String)
      (thread_id : Option String)
  | sessionStart
      (cwd : Option String)
      (session_source : Option String)
      (thread_id : Option String)
  | toolCallFinished
      (attempt : Option Int)
      (call_id : Option String)
      (cwd : Option String)
      (duration_ms : Option Int)
      (model_request_id : Option String)
      (output_bytes : Option Int)
      (output_preview : Option String)
      (status : Option String)
      (success : Option Bool)
      (thread_id : Option String)
      (tool_name : Option String)
      (turn_id : Option String)
  | toolCallStarted
      (attempt : Option Int)
      (call_id : Option String)
      (cwd : Option String)
      (model_request_id : Option String)
      (thread_id : Option String)
      (tool_name : Option String)
      (turn_id : Option String)

/-- `True` exactly for the `UnknownHookEvent` tag. -/
def VariantFields.isUnknown : VariantFields → Bool
  | .unknown => true
  | _ => false

/-- The four common-field keys of the wire format. -/
def commonFieldKeys : List String := ["schema-version", "event-id", "timestamp", "type"]

/-- The payload keys a variant's named fields are read from (the exact
keys `parse_hook_event` passes to `payload.get` in each branch). -/
def variantFieldKeys : VariantFields → List String
  | .unknown => []
  | .agentTurnComplete .. =>
    ["cwd", "input-messages", "last-assistant-message", "thread-id", "turn-id"]
  | .approvalRequested .. =>
    ["approval-policy", "call-id", "command", "cwd", "grant-root", "kind", "message", "paths", "proposed-execpolicy-amendment", "reason", "request-id", "sandbox-policy", "server-name", "thread-id", "turn-id"]
  | .modelRequestStarted .. =>
    ["attempt", "cwd", "has-output-schema", "model", "model-request-id", "parallel-tool-calls", "prompt-input-item-count", "provider", "thread-id", "tool-count", "turn-id"]
  | .modelResponseCompleted .. =>
    ["attempt", "cwd", "model-request-id", "needs-follow-up", "response-id", "thread-id", "token-usage", "turn-id"]
  | .sessionEnd .. => ["cwd", "session-source", "thread-id"]
  | .sessionStart .. => ["cwd", "session-source", "thread-id"]
  | .toolCallFinished .. =>
    ["attempt", "call-id", "cwd", "duration-ms", "model-request-id", "output-bytes", "output-preview", "status", "success", "thread-id", "tool-name", "turn-id"]
  | .toolCallStarted .. =>
    ["attempt", "call-id", "cwd", "model-request-id", "thread-id", "tool-name", "turn-id"]

/-- Every key consumed by any branch of the binder (the union of the
common keys and all variants' named-field keys). -/
def allBinderKeys : List String :=
  ["schema-version", "event-id", "timestamp", "type", "cwd", "input-messages",
   "last-assistant-message", "thread-id", "turn-id", "approval-policy", "call-id",
   "command", "grant-root", "kind", "message", "paths", "proposed-execpolicy-amendment",
   "reason", "request-id", "sandbox-policy", "server-name", "attempt",
   "has-output-schema", "model", "model-request-id", "parallel-tool-calls",
   "prompt-input-item-count", "provider", "tool-count", "needs-follow-up",
   "response-id", "token-usage", "session-source", "duration-ms", "output-bytes",
   "output-preview", "status", "success", "tool-name"]

/-- `HookEventBase` (the four common fields, `raw`, `extras`) together
with the matched variant's named fields. -/
structure HookEvent where
  schema_version : Int
  event_id : String
  timestamp : String
  event_type : String
  raw : PyDict
  extras : PyDict
  fields : VariantFields

/-- The dict comprehension `{k: v for k, v in raw.items() if k not in known}`. -/
def extras_for (raw : PyDict) (known : List String) : PyDict :=
  raw.filter (fun kv => !(known.contains kv.fst))

/-- `base_known` in `parse_hook_event`: the four common-field keys. -/
def base_known : List String := ["schema-version", "event-id", "timestamp", "type"]

/-- The infallible tail of `parse_hook_event`: the discriminant
dispatch over the fixed variant table, given the already-coerced four
common fields. -/
def bind_variants (payload : PyDict) (schema_version : Int)
    (event_id timestamp event_type : String) : HookEvent :=
  if event_type = "" then
    ⟨schema_version, event_id, timestamp, event_type, payload,
      extras_for payload base_known, .unknown⟩
  else if event_type = "agent-turn-complete" then
    ⟨schema_version, event_id, timestamp, "agent-turn-complete", payload,
      extras_for payload ["cwd", "event-id", "input-messages", "last-assistant-message", "schema-version", "thread-id", "timestamp", "turn-id", "type"],
      .agentTurnComplete
        (_as_str (dictGet payload "cwd"))
        (_as_str_list (dictGet payload "input-messages"))
        (_as_str (dictGet payload "last-assistant-message"))
        (_as_str (dictGet payload "thread-id"))
        (_as_str (dictGet payload "turn-id"))⟩
  else if event_type = "approval-requested" then
    ⟨schema_version, event_id, timestamp, "approval-requested", payload,
      extras_for payload ["approval-policy", "call-id", "command", "cwd", "event-id", "grant-root", "kind", "message", "paths", "proposed-execpolicy-amendment", "reason", "request-id", "sandbox-policy", "schema-version", "server-name", "thread-id", "timestamp", "turn-id", "type"],
      .approvalRequested
        (dictGet payload "approval-policy")
        (_as_str (dictGet payload "call-id"))
        (_as_str_list (dictGet payload "command"))
        (_as_str (dictGet payload "cwd"))
        (_as_str (dictGet payload "grant-root"))
        (_as_str (dictGet payload "kind"))
        (_as_str (dictGet payload "message"))
        (_as_str_list (dictGet payload "paths"))
        (_as_str_list (dictGet payload "proposed-execpolicy-amendment"))
        (_as_str (dictGet payload "reason"))
        (_as_str (dictGet payload "request-id"))
        (dictGet payload "sandbox-policy")
        (_as_str (dictGet payload "server-name"))
        (_as_str (dictGet payload "thread-id"))
        (_as_str (dictGet payload "turn-id"))⟩
  else if event_type = "model-request-started" then
    ⟨schema_version, event_id, timestamp, "model-request-started", payload,
      extras_for payload ["attempt", "cwd", "event-id", "has-output-schema", "model", "model-request-id", "parallel-tool-calls", "prompt-input-item-count", "provider", "schema-version", "thread-id", "timestamp", "tool-count", "turn-id", "type"],
      .modelRequestStarted
        (_as_int (dictGet payload "attempt"))
        (_as_str (dictGet payload "cwd"))
        (_as_bool (dictGet payload "has-output-schema"))
        (_as_str (dictGet payload "model"))
        (_as_str (dictGet payload "model-request-id"))
        (_as_bool (dictGet payload "parallel-tool-calls"))
        (_as_int (dictGet payload "prompt-input-item-count"))
        (_as_str (dictGet payload "provider"))
        (_as_str (dictGet payload "thread-id"))
        (_as_int (dictGet payload "tool-count"))
        (_as_str (dictGet payload "turn-id"))⟩
  else if event_type = "model-response-completed" then
    ⟨schema_version, event_id, timestamp, "model-response-completed", payload,
      extras_for payload ["attempt", "cwd", "event-id", "model-request-id", "needs-follow-up", "response-id", "schema-version", "thread-id", "timestamp", "token-usage", "turn-id", "type"],
      .modelResponseCompleted
        (_as_int (dictGet payload "attempt"))
        (_as_str (dictGet payload "cwd"))
        (_as_str (dictGet payload "model-request-id"))
        (_as_bool (dictGet payload "needs-follow-up"))
        (_as_str (dictGet payload "response-id"))
        (_as_str (dictGet payload "thread-id"))
        (dictGet payload "token-usage")
        (_as_str (dictGet payload "turn-id"))⟩
  else if event_type = "session-end" then
    ⟨schema_version, event_id, timestamp, "session-end", payload,
      extras_for payload ["cwd", "event-id", "schema-version", "session-source", "thread-id", "timestamp", "type"],
      .sessionEnd
        (_as_str (dictGet payload "cwd"))
        (_as_str (dictGet payload "session-source"))
        (_as_str (dictGet payload "thread-id"))⟩
  else if event_type = "session-start" then
    ⟨schema_version, event_id, timestamp, "session-start", payload,
      extras_for payload ["cwd", "event-id", "schema-version", "session-source", "thread-id", "timestamp", "type"],
      .sessionStart
        (_as_str (dictGet payload "cwd"))
        (_as_str (dictGet payload "session-source"))
        (_as_str (dictGet payload "thread-id"))⟩
  else if event_type = "tool-call-finished" then
    ⟨schema_version, event_id, timestamp, "tool-call-finished", payload,
      extras_for payload ["attempt", "call-id", "cwd", "duration-ms", "event-id", "model-request-id", "output-bytes", "output-preview", "schema-version", "status", "success", "thread-id", "timestamp", "tool-name", "turn-id", "type"],
      .toolCallFinished
        (_as_int (dictGet payload "attempt"))
        (_as_str (dictGet payload "call-id"))
        (_as_str (dictGet payload "cwd"))
        (_as_int (dictGet payload "duration-ms"))
        (_as_str (dictGet payload "model-request-id"))
        (_as_int (dictGet payload "output-bytes"))
        (_as_str (dictGet payload "output-preview"))
        (_as_str (dictGet payload "status"))
        (_as_bool (dictGet payload "success"))
        (_as_str (dictGet payload "thread-id"))
        (_as_str (dictGet payload "tool-name"))
        (_as_str (dictGet payload "turn-id"))⟩
  else if event_type = "tool-call-started" then
    ⟨schema_version, event_id, timestamp, "tool-call-started", payload,
      extras_for payload ["attempt", "call-id", "cwd", "event-id", "model-request-id", "schema-version", "thread-id", "timestamp", "tool-name", "turn-id", "type"],
      .toolCallStarted
        (_as_int (dictGet payload "attempt"))
        (_as_str (dictGet payload "call-id"))
        (_as_str (dictGet payload "cwd"))
        (_as_str (dictGet payload "model-request-id"))
        (_as_str (dictGet payload "thread-id"))
        (_as_str (dictGet payload "tool-name"))
        (_as_str (dictGet payload "turn-id"))⟩
  else
    ⟨schema_version, event_id, timestamp, event_type, payload,
      extras_for payload (base_known ++ ["type"]), .unknown⟩

/-- `parse_hook_event`: the tolerant event binder.  The only fallible
step is `int(payload.get("schema-version") or 0)` (the builtin `int`,
not `_as_int`); everything downstream is total and handled by
`bind_variants`. -/
def parse_hook_event (payload : PyDict) : Except PyErr HookEvent :=
  match pyInt (pyOr (dictGet payload "schema-version") (.int 0)) with
  | .error e => .error e
  | .ok schema_version =>
    .ok (bind_variants payload schema_version
      (pyStr (pyOr (dictGet payload "event-id") (.str "")))
      (pyStr (pyOr (dictGet payload "timestamp") (.str "")))
      (pyStr (pyOr (dictGet payload "type") (.str ""))))

end XcodexHooksModels

namespace HookHost

/-- One diagnostic notice written to stderr by the dispatch loop. -/
inductive Diag where
  | parseFailure (line : String)
  | handlerRaised (e : PyErr)
  deriving DecidableEq, Repr

/-- Observable state accumulated by the dispatch loop: the resolved
events handed to `on_event`, in order, and the stderr notices. -/
structure HostState where
  handlerCalls : List JValue
  diags : List Diag

/-- `_resolve_event_payload`: if the argument is a dict carrying a
`payload_path`/`payload-path` key whose selected value
(`get("payload_path") or get("payload-path")`) is a non-empty string,
read and JSON-parse the file at that path; otherwise return the dict
itself, or `{}` for a non-dict argument.  File and parse errors
propagate as exceptions. -/
def _resolve_event_payload (jsonParse : String → Except PyErr JValue)
    (fs : String → Option String) (event_or_envelope : JValue) :
    Except PyErr JValue :=
  match event_or_envelope with
  | .obj entries =>
    if hasKey entries "payload_path" || hasKey entries "payload-path" then
      match pyOr (dictGet entries "payload_path") (dictGet entries "payload-path") with
      | .str payload_path =>
        if !payload_path.isEmpty then
          match fs payload_path with
          | none => .error .fileNotFound
          | some text => jsonParse text
        else .ok (.obj entries)
      | _ => .ok (.obj entries)
    else .ok (.obj entries)
  | _ => .ok (.obj [])

/-- `msg.get("type") != "hook-event"` decided on a dict: only a string
equal to `"hook-event"` passes. -/
def isHookEventMsg (entries : PyDict) : Bool :=
  match dictGet entries "type" with
  | .str s => s == "hook-event"
  | _ => false

/-- The `for raw_line in sys.stdin` loop body of `main`: strip, skip
blanks, JSON-parse (parse failures reported and skipped), skip non
`hook-event` messages, resolve the envelope (errors NOT caught — they
propagate), call `on_event` (errors caught and reported). -/
def mainLoop (jsonParse : String → Except PyErr JValue)
    (fs : String → Option String)
    (on_event : JValue → Except PyErr Unit) :
    List String → HostState → Except PyErr HostState
  | [], st => .ok st
  | line :: rest, st =>
    let raw_line := pyStrip line
    if raw_line = "" then
      mainLoop jsonParse fs on_event rest st
    else
      match jsonParse raw_line with
      | .error _ =>
        mainLoop jsonParse fs on_event rest
          { st with diags := st.diags ++ [.parseFailure raw_line] }
      | .ok msg =>
        match msg with
        | .obj entries =>
          if !isHookEventMsg entries then
            mainLoop jsonParse fs on_event rest st
          else
            match _resolve_event_payload jsonParse fs (dictGet entries "event") with
            | .error e => .error e
            | .ok event =>
              let st := { st with handlerCalls := st.handlerCalls ++ [event] }
              match on_event event with
              | .ok _ => mainLoop jsonParse fs on_event rest st
              | .error e =>
                mainLoop jsonParse fs on_event rest
                  { st with diags := st.diags ++ [.handlerRaised e] }
        | _ => .error .attributeError

/-- `main` after its argv checks and user-module loading (out of scope
here): run the dispatch loop over stdin's lines and return exit status
0 at end-of-stream.  An uncaught exception escapes as `.error`. -/
def main (jsonParse : String → Except PyErr JValue)
    (fs : String → Option String)
    (on_event : JValue → Except PyErr Unit)
    (stdinLines : List String) : Except PyErr (HostState × Int) :=
  (mainLoop jsonParse fs on_event stdinLines ⟨[], []⟩).map (fun st => (st, 0))

end HookHost

namespace XcodexHooks

/-- `read_payload`: take `raw` if provided else all of stdin, substitute
`"\x7b\x7d"` (the two-character text of an empty JSON object) when the
string is empty, JSON-parse it, then dereference a truthy
`payload-path` entry through the filesystem.  `.get` on a non-dict
parse result raises `AttributeError`; `Path(non-string)` raises
`TypeError`. -/
def read_payload (jsonParse : String → Except PyErr JValue)
    (fs : String → Option String)
    (stdin : String) (raw : Option String) : Except PyErr JValue :=
  let raw0 := match raw with | none => stdin | some s => s
  let raw1 := if raw0 = "" then "\x7b\x7d" else raw0
  match jsonParse raw1 with
  | .error e => .error e
  | .ok payload =>
    match payload with
    | .obj entries =>
      let payload_path := dictGet entries "payload-path"
      if truthy payload_path then
        match payload_path with
        | .str p =>
          match fs p with
          | none => .error .fileNotFound
          | some text => jsonParse text
        | _ => .error .typeError
      else .ok (.obj entries)
    | _ => .error .attributeError

end XcodexHooks

/-- The value of the first entry of `m` with key `k`, if any (unlike
`dictGet` this distinguishes an absent key from an explicit `null`). -/
def firstEntry (m : PyDict) (k : String) : Option JValue :=
  (m.find? (fun kv => kv.fst == k)).map (fun kv => kv.snd)

/-- The value `_resolve_event_payload` selects for the indirection test:
`envelope.get("payload_path") or envelope.get("payload-path")`. -/
def selectedIndirection (m : PyDict) : JValue :=
  pyOr (dictGet m "payload_path") (dictGet m "payload-path")

/-- `True` on values that are not a non-empty string: the empty string,
`null`, and every non-string value. -/
def badIndirection : JValue → Bool
  | .str s => s.isEmpty
  | _ => true

/-- `True` exactly on non-empty strings. -/
def isNonEmptyStr : JValue → Bool
  | .str s => !s.isEmpty
  | _ => false

/-! Concrete fixtures used by witnesses and counterexamples below: a
filesystem with no readable files, a JSON parser that rejects
everything, and small streams/envelopes. -/

/-- A filesystem on which every read fails. -/
def emptyFs : String → Option String := fun _ => none

/-- A `json.loads` stand-in that fails on every input. -/
def failParse : String → Except PyErr JValue := fun _ => .error .jsonDecodeError

/-- Envelope whose `payload_path` entry is a truthy non-string and whose
`payload-path` entry is a non-empty string path. -/
def c4Env : PyDict := [("payload_path", JValue.int 1), ("payload-path", JValue.str "/x.json")]

/-- Filesystem holding one JSON document at `/x.json`. -/
def c4Fs : String → Option String := fun p => if p = "/x.json" then some "7" else none

/-- `json.loads` stand-in for the one-document filesystem. -/
def c4Parse : String → Except PyErr JValue :=
  fun s => if s = "7" then .ok (.int 7) else .error .jsonDecodeError

/-- Envelope carrying both indirection keys, one `null` and one the
empty string. -/
def c9Env : PyDict := [("payload_path", JValue.null), ("payload-path", JValue.str "")]

/-- `json.loads` stand-in accepting only the empty-object text. -/
def c10Parse : String → Except PyErr JValue :=
  fun s => if s = "\x7b\x7d" then .ok (.obj []) else .error .jsonDecodeError

/-- Stream line: a hook-event message whose envelope points at a missing
payload file. -/
def c2Line1 : String :=
  "\x7b\"type\":\"hook-event\",\"event\":\x7b\"payload_path\":\"/missing.json\"\x7d\x7d"

/-- Stream line: a well-formed inline hook-event message. -/
def c2Line2 : String :=
  "\x7b\"type\":\"hook-event\",\"event\":\x7b\"type\":\"session-start\"\x7d\x7d"

/-- Parsed form of `c2Line1`. -/
def c2Msg1 : JValue :=
  .obj [("type", .str "hook-event"), ("event", .obj [("payload_path", .str "/missing.json")])]

/-- Parsed form of `c2Line2`. -/
def c2Msg2 : JValue :=
  .obj [("type", .str "hook-event"), ("event", .obj [("type", .str "session-start")])]

/-- `json.loads` stand-in covering the two dispatch-loop lines. -/
def c2Parse : String → Except PyErr JValue := fun s =>
  if s = c2Line1 then .ok c2Msg1
  else if s = c2Line2 then .ok c2Msg2
  else .error .jsonDecodeError

/-- First of three inline hook-event stream lines. -/
def c8Line1 : String :=
  "\x7b\"type\":\"hook-event\",\"event\":\x7b\"type\":\"session-start\"\x7d\x7d"

/-- Second inline hook-event stream line. -/
def c8Line2 : String :=
  "\x7b\"type\":\"hook-event\",\"event\":\x7b\"type\":\"tool-call-started\"\x7d\x7d"

/-- Third inline hook-event stream line. -/
def c8Line3 : String :=
  "\x7b\"type\":\"hook-event\",\"event\":\x7b\"type\":\"session-end\"\x7d\x7d"

/-- Inline event payload of `c8Line1`. -/
def c8Event1 : JValue := .obj [("type", .str "session-start")]

/-- Inline event payload of `c8Line2`. -/
def c8Event2 : JValue := .obj [("type", .str "tool-call-started")]

/-- Inline event payload of `c8Line3`. -/
def c8Event3 : JValue := .obj [("type", .str "session-end")]

/-- `json.loads` stand-in covering the three hook-event lines. -/
def c8Parse : String → Except PyErr JValue := fun s =>
  if s = c8Line1 then .ok (.obj [("type", .str "hook-event"), ("event", c8Event1)])
  else if s = c8Line2 then .ok (.obj [("type", .str "hook-event"), ("event", c8Event2)])
  else if s = c8Line3 then .ok (.obj [("type", .str "hook-event"), ("event", c8Event3)])
  else .error .jsonDecodeError

/-- Payload with one extra key on a known discriminant. -/
def c5Payload : PyDict := [("type", JValue.str "tool-call-started"), ("custom-key", JValue.str "x")]

/-- The typed event `parse_hook_event` builds from `c5Payload`. -/
def c5Event : XcodexHooksModels.HookEvent :=
  ⟨0, "", "", "tool-call-started", c5Payload, [("custom-key", JValue.str "x")],
    .toolCallStarted none none none none none none none⟩

/-- Payload with an unrecognized extra key on a known discriminant. -/
def c6Payload : PyDict := [("type", JValue.str "session-start"), ("extra", JValue.int 1)]

/-- The typed event `parse_hook_event` builds from `c6Payload`. -/
def c6Event : XcodexHooksModels.HookEvent :=
  ⟨0, "", "", "session-start", c6Payload, [("extra", JValue.int 1)],
    .sessionStart none none none⟩

/-- Payload spelling the schema-version key with an underscore. -/
def c3Payload : PyDict := [("schema_version", JValue.int 7), ("type", JValue.str "session-start")]

/-- The typed event `parse_hook_event` builds from `c3Payload`. -/
def c3Event : XcodexHooksModels.HookEvent :=
  ⟨0, "", "", "session-start", c3Payload, [("schema_version", JValue.int 7)],
    .sessionStart none none none⟩

/-! ## Helper lemmas -/

/-- A key of `extras_for raw S` lies outside any list `T` whose members
all belong to `S`. -/
theorem not_mem_of_mem_extras_keys {p : PyDict} {S T : List String}
    (hsub : ∀ x ∈ T, x ∈ S) {k : String}
    (hk : k ∈ (XcodexHooksModels.extras_for p S).map Prod.fst) : k ∉ T := by
  intro hkT
  obtain ⟨kv, hkvmem, hfst⟩ := List.mem_map.mp hk
  have hpred := List.of_mem_filter hkvmem
  rw [hfst] at hpred
  simp only [Bool.not_eq_true'] at hpred
  exact (by simpa using hpred : k ∉ S) (hsub _ hkT)

/-- A dict without key `k` yields Python `None` from `.get(k)`. -/
theorem dictGet_eq_null_of_not_hasKey {m : PyDict} {k : String}
    (h : hasKey m k = false) : dictGet m k = .null := by
  unfold hasKey at h
  unfold dictGet
  cases hfind : m.find? (fun kv => kv.fst == k) with
  | none => rfl
  | some kv => rw [hfind] at h; simp at h

/-- A dict whose `.get(k)` is not `None` has key `k`. -/
theorem hasKey_of_dictGet_ne_null {m : PyDict} {k : String}
    (h : dictGet m k ≠ .null) : hasKey m k = true := by
  unfold dictGet at h
  unfold hasKey
  cases hfind : m.find? (fun kv => kv.fst == k) with
  | none => rw [hfind] at h; exact absurd rfl h
  | some kv => rfl

/-- Inversion for a successful bind: the event is `bind_variants` of the
coerced common fields, and the schema-version coercion succeeded. -/
theorem parse_hook_event_ok_inv (p : PyDict) (ev : XcodexHooksModels.HookEvent)
    (h : XcodexHooksModels.parse_hook_event p = .ok ev) :
    ∃ sv, pyInt (pyOr (dictGet p "schema-version") (JValue.int 0)) = .ok sv ∧
      ev = XcodexHooksModels.bind_variants p sv
        (pyStr (pyOr (dictGet p "event-id") (JValue.str "")))
        (pyStr (pyOr (dictGet p "timestamp") (JValue.str "")))
        (pyStr (pyOr (dictGet p "type") (JValue.str ""))) := by
  unfold XcodexHooksModels.parse_hook_event at h
  cases hsv : pyInt (pyOr (dictGet p "schema-version") (JValue.int 0)) with
  | error e => rw [hsv] at h; cases h
  | ok sv => rw [hsv] at h; cases h; exact ⟨sv, rfl, rfl⟩

/-- Every branch of the dispatch keeps the input mapping as `raw`. -/
theorem bind_variants_raw (p : PyDict) (sv : Int) (ei ts et : String) :
    (XcodexHooksModels.bind_variants p sv ei ts et).raw = p := by
  unfold XcodexHooksModels.bind_variants
  repeat' split
  all_goals rfl

/-- Every branch of the dispatch carries the coerced schema version. -/
theorem bind_variants_schema_version (p : PyDict) (sv : Int) (ei ts et : String) :
    (XcodexHooksModels.bind_variants p sv ei ts et).schema_version = sv := by
  unfold XcodexHooksModels.bind_variants
  repeat' split
  all_goals rfl

theorem not_contains_of_sub {S T : List String} (hsub : ∀ x ∈ S, x ∈ T)
    {k : String} (hk : k ∉ T) : S.contains k = false := by
  cases hc : S.contains k with
  | false => rfl
  | true => exact absurd (hsub k (by simpa using hc)) hk

theorem bind_variants_extras_disjoint (p : PyDict) (sv : Int) (ei ts et : String)
    (k : String)
    (hk : k ∈ ((XcodexHooksModels.bind_variants p sv ei ts et).extras.map Prod.fst)) :
    k ∉ XcodexHooksModels.commonFieldKeys ∧
      k ∉ XcodexHooksModels.variantFieldKeys
        (XcodexHooksModels.bind_variants p sv ei ts et).fields := by
  delta XcodexHooksModels.bind_variants at hk ⊢
  by_cases h0 : et = ""
  · rw [if_pos h0] at hk ⊢
    refine ⟨not_mem_of_mem_extras_keys (by decide) hk, ?_⟩
    simp only [XcodexHooksModels.variantFieldKeys]
    exact not_mem_of_mem_extras_keys (by decide) hk
  rw [if_neg h0] at hk ⊢
  by_cases h1 : et = "agent-turn-complete"
  · rw [if_pos h1] at hk ⊢
    refine ⟨not_mem_of_mem_extras_keys (by decide) hk, ?_⟩
    simp only [XcodexHooksModels.variantFieldKeys]
    exact not_mem_of_mem_extras_keys (by decide) hk
  rw [if_neg h1] at hk ⊢
  by_cases h2 : et = "approval-requested"
  · rw [if_pos h2] at hk ⊢
    refine ⟨not_mem_of_mem_extras_keys (by decide) hk, ?_⟩
    simp only [XcodexHooksModels.variantFieldKeys]
    exact not_mem_of_mem_extras_keys (by decide) hk
  rw [if_neg h2] at hk ⊢
  by_cases h3 : et = "model-request-started"
  · rw [if_pos h3] at hk ⊢
    refine ⟨not_mem_of_mem_extras_keys (by decide) hk, ?_⟩
    simp only [XcodexHooksModels.variantFieldKeys]
    exact not_mem_of_mem_extras_keys (by decide) hk
  rw [if_neg h3] at hk ⊢
  by_cases h4 : et = "model-response-completed"
  · rw [if_pos h4] at hk ⊢
    refine ⟨not_mem_of_mem_extras_keys (by decide) hk, ?_⟩
    simp only [XcodexHooksModels.variantFieldKeys]
    exact not_mem_of_mem_extras_keys (by decide) hk
  rw [if_neg h4] at hk ⊢
  by_cases h5 : et = "session-end"
  · rw [if_pos h5] at hk ⊢
    refine ⟨not_mem_of_mem_extras_keys (by decide) hk, ?_⟩
    simp only [XcodexHooksModels.variantFieldKeys]
    exact not_mem_of_mem_extras_keys (by decide) hk
  rw [if_neg h5] at hk ⊢
  by_cases h6 : et = "session-start"
  · rw [if_pos h6] at hk ⊢
    refine ⟨not_mem_of_mem_extras_keys (by decide) hk, ?_⟩
    simp only [XcodexHooksModels.variantFieldKeys]
    exact not_mem_of_mem_extras_keys (by decide) hk
  rw [if_neg h6] at hk ⊢
  by_cases h7 : et = "tool-call-finished"
  · rw [if_pos h7] at hk ⊢
    refine ⟨not_mem_of_mem_extras_keys (by decide) hk, ?_⟩
    simp only [XcodexHooksModels.variantFieldKeys]
    exact not_mem_of_mem_extras_keys (by decide) hk
  rw [if_neg h7] at hk ⊢
  by_cases h8 : et = "tool-call-started"
  · rw [if_pos h8] at hk ⊢
    refine ⟨not_mem_of_mem_extras_keys (by decide) hk, ?_⟩
    simp only [XcodexHooksModels.variantFieldKeys]
    exact not_mem_of_mem_extras_keys (by decide) hk
  rw [if_neg h8] at hk ⊢
  refine ⟨not_mem_of_mem_extras_keys (by decide) hk, ?_⟩
  simp only [XcodexHooksModels.variantFieldKeys]
  exact not_mem_of_mem_extras_keys (by decide) hk

theorem mem_extras_of_not_binder_key (p : PyDict) (sv : Int) (ei ts et : String)
    (kv : String × JValue) (hmem : kv ∈ p)
    (hfree : kv.fst ∉ XcodexHooksModels.allBinderKeys) :
    kv ∈ (XcodexHooksModels.bind_variants p sv ei ts et).extras := by
  delta XcodexHooksModels.bind_variants
  by_cases h0 : et = ""
  · rw [if_pos h0] 
    exact List.mem_filter.mpr ⟨hmem, by simp only [Bool.not_eq_true']; exact not_contains_of_sub (by decide) hfree⟩
  rw [if_neg h0] 
  by_cases h1 : et = "agent-turn-complete"
  · rw [if_pos h1] 
    exact List.mem_filter.mpr ⟨hmem, by simp only [Bool.not_eq_true']; exact not_contains_of_sub (by decide) hfree⟩
  rw [if_neg h1] 
  by_cases h2 : et = "approval-requested"
  · rw [if_pos h2] 
    exact List.mem_filter.mpr ⟨hmem, by simp only [Bool.not_eq_true']; exact not_contains_of_sub (by decide) hfree⟩
  rw [if_neg h2] 
  by_cases h3 : et = "model-request-started"
  · rw [if_pos h3] 
    exact List.mem_filter.mpr ⟨hmem, by simp only [Bool.not_eq_true']; exact not_contains_of_sub (by decide) hfree⟩
  rw [if_neg h3] 
  by_cases h4 : et = "model-response-completed"
  · rw [if_pos h4] 
    exact List.mem_filter.mpr ⟨hmem, by simp only [Bool.not_eq_true']; exact not_contains_of_sub (by decide) hfree⟩
  rw [if_neg h4] 
  by_cases h5 : et = "session-end"
  · rw [if_pos h5] 
    exact List.mem_filter.mpr ⟨hmem, by simp only [Bool.not_eq_true']; exact not_contains_of_sub (by decide) hfree⟩
  rw [if_neg h5] 
  by_cases h6 : et = "session-start"
  · rw [if_pos h6] 
    exact List.mem_filter.mpr ⟨hmem, by simp only [Bool.not_eq_true']; exact not_contains_of_sub (by decide) hfree⟩
  rw [if_neg h6] 
  by_cases h7 : et = "tool-call-finished"
  · rw [if_pos h7] 
    exact List.mem_filter.mpr ⟨hmem, by simp only [Bool.not_eq_true']; exact not_contains_of_sub (by decide) hfree⟩
  rw [if_neg h7] 
  by_cases h8 : et = "tool-call-started"
  · rw [if_pos h8] 
    exact List.mem_filter.mpr ⟨hmem, by simp only [Bool.not_eq_true']; exact not_contains_of_sub (by decide) hfree⟩
  rw [if_neg h8] 
  exact List.mem_filter.mpr ⟨hmem, by simp only [Bool.not_eq_true']; exact not_contains_of_sub (by decide) hfree⟩

/-- C6: for every payload mapping, a successful bind returns a typed
event whose `raw` field is the input mapping itself, unchanged. -/
theorem C6_raw_roundtrip (p : PyDict) (ev : XcodexHooksModels.HookEvent)
    (h : XcodexHooksModels.parse_hook_event p = .ok ev) : ev.raw = p := by
  obtain ⟨sv, hsv, hev⟩ := parse_hook_event_ok_inv p ev h
  rw [hev, bind_variants_raw]

/-- C6 witness: the round-trip at a concrete payload. -/
theorem C6_raw_roundtrip_witness :
    XcodexHooksModels.parse_hook_event c6Payload = .ok c6Event ∧ c6Event.raw = c6Payload :=
  ⟨rfl, C6_raw_roundtrip c6Payload c6Event rfl⟩

/-- C5: on a known discriminant, no key of `extras` is a common-field
key or one of the matched variant's named-field keys. -/
theorem C5_extras_disjoint (p : PyDict) (ev : XcodexHooksModels.HookEvent)
    (hok : XcodexHooksModels.parse_hook_event p = .ok ev)
    (hknown : ev.fields.isUnknown = false) :
    ∀ k ∈ ev.extras.map Prod.fst,
      k ∉ XcodexHooksModels.commonFieldKeys ∧
        k ∉ XcodexHooksModels.variantFieldKeys ev.fields := by
  obtain ⟨sv, hsv, hev⟩ := parse_hook_event_ok_inv p ev hok
  subst hev
  intro k hk
  exact bind_variants_extras_disjoint p sv _ _ _ k hk

/-- C5 witness: disjointness at a concrete tool-call-started payload. -/
theorem C5_extras_disjoint_witness :
    XcodexHooksModels.parse_hook_event c5Payload = .ok c5Event ∧
      c5Event.fields.isUnknown = false ∧
      ∀ k ∈ c5Event.extras.map Prod.fst,
        k ∉ XcodexHooksModels.commonFieldKeys ∧
          k ∉ XcodexHooksModels.variantFieldKeys c5Event.fields :=
  ⟨rfl, rfl, C5_extras_disjoint c5Payload c5Event rfl rfl⟩

/-- C1 (claim refuted at this input): a present but non-numeric-like
schema-version makes `parse_hook_event` raise `ValueError` instead of
treating it as absent/zero. -/
theorem C1_nonnumeric_schema_version_raises :
    XcodexHooksModels.parse_hook_event [("schema-version", JValue.str "abc")]
      = .error .valueError := by rfl

/-- C7 (claim refuted at this input): a payload with no discriminant
(so the open variant is called for) still raises, through the
schema-version coercion, instead of returning the open variant. -/
theorem C7_unknown_discriminant_raises :
    XcodexHooksModels.parse_hook_event [("schema-version", JValue.arr [JValue.int 1])]
      = .error .typeError := by rfl

/-- C3 counterexample: the same schema-version value binds differently
under the two spellings — the underscore spelling is ignored (yields 0)
while the hyphen spelling is read (yields 7). -/
theorem C3_counterexample :
    (XcodexHooksModels.parse_hook_event
        [("schema_version", JValue.int 7), ("type", JValue.str "session-start")]).map
      XcodexHooksModels.HookEvent.schema_version = Except.ok 0
    ∧ (XcodexHooksModels.parse_hook_event
        [("schema-version", JValue.int 7), ("type", JValue.str "session-start")]).map
      XcodexHooksModels.HookEvent.schema_version = Except.ok 7 :=
  ⟨rfl, rfl⟩

/-- C3 amended: the binder reads only the hyphen-separated spelling; an
underscore-spelled key is not bound (the field falls back to its
absent/zero reading when the hyphen key is missing) and the entry is
preserved in `extras`. -/
theorem C3_hyphen_only_binding (p : PyDict) (ev : XcodexHooksModels.HookEvent) (v : JValue)
    (hok : XcodexHooksModels.parse_hook_event p = .ok ev)
    (hus : firstEntry p "schema_version" = some v) :
    ("schema_version", v) ∈ ev.extras ∧
      (hasKey p "schema-version" = false → ev.schema_version = 0) := by
  obtain ⟨sv, hsv, hev⟩ := parse_hook_event_ok_inv p ev hok
  subst hev
  constructor
  · unfold firstEntry at hus
    cases hfind : p.find? (fun kv => kv.fst == "schema_version") with
    | none => rw [hfind] at hus; cases hus
    | some kv =>
      rw [hfind] at hus
      obtain ⟨a, b⟩ := kv
      have hmem := List.mem_of_find?_eq_some hfind
      have hfst : a = "schema_version" := by simpa using List.find?_some hfind
      have hsnd : b = v := by simpa using hus
      subst hfst
      subst hsnd
      exact mem_extras_of_not_binder_key p sv _ _ _ _ hmem
        (show "schema_version" ∉ XcodexHooksModels.allBinderKeys by decide)
  · intro habs
    have hnull := dictGet_eq_null_of_not_hasKey habs
    rw [hnull] at hsv
    have h0 : (Except.ok (0 : Int) : Except PyErr Int) = .ok sv := hsv
    cases h0
    exact bind_variants_schema_version p 0 _ _ _

/-- C3 amended, witness at a concrete underscore-spelled payload. -/
theorem C3_hyphen_only_binding_witness :
    XcodexHooksModels.parse_hook_event c3Payload = .ok c3Event ∧
      firstEntry c3Payload "schema_version" = some (JValue.int 7) ∧
      (("schema_version", JValue.int 7) ∈ c3Event.extras ∧
        (hasKey c3Payload "schema-version" = false → c3Event.schema_version = 0)) :=
  ⟨rfl, rfl, C3_hyphen_only_binding c3Payload c3Event (JValue.int 7) rfl rfl⟩

/-- C4 counterexample: this envelope carries a non-empty string
indirection path under `payload-path` and the file parses, yet the
resolver returns the envelope unchanged, because the truthy non-string
`payload_path` entry wins the `or` and then fails the string test. -/
theorem C4_counterexample :
    c4Fs "/x.json" = some "7" ∧ c4Parse "7" = .ok (JValue.int 7) ∧
      HookHost._resolve_event_payload c4Parse c4Fs (.obj c4Env) = .ok (.obj c4Env) ∧
      JValue.obj c4Env ≠ JValue.int 7 :=
  ⟨rfl, rfl, rfl, fun h => JValue.noConfusion h⟩

/-- C4 amended: the file is read exactly when the value selected by
`get("payload_path") or get("payload-path")` is a non-empty string;
otherwise a dict envelope is returned unchanged. -/
theorem C4_selected_indirection_rule
    (jp : String → Except PyErr JValue) (fs : String → Option String) (m : PyDict) :
    (∀ s text v, selectedIndirection m = .str s → s ≠ "" → fs s = some text →
        jp text = .ok v →
        HookHost._resolve_event_payload jp fs (.obj m) = .ok v)
    ∧ (isNonEmptyStr (selectedIndirection m) = false →
        HookHost._resolve_event_payload jp fs (.obj m) = .ok (.obj m)) := by
  constructor
  · intro s text v hsel hs hfs hjp
    have hkey : (hasKey m "payload_path" || hasKey m "payload-path") = true := by
      unfold selectedIndirection pyOr at hsel
      rw [Bool.or_eq_true]
      split at hsel
      · exact Or.inl (hasKey_of_dictGet_ne_null
          (by rw [hsel]; exact fun hc => JValue.noConfusion hc))
      · exact Or.inr (hasKey_of_dictGet_ne_null
          (by rw [hsel]; exact fun hc => JValue.noConfusion hc))
    have hsel2 : pyOr (dictGet m "payload_path") (dictGet m "payload-path") = JValue.str s := hsel
    have hne : s.isEmpty = false := by
      cases hc : s.isEmpty with
      | false => rfl
      | true => exact absurd ((String.isEmpty_iff s).mp hc) hs
    simp only [HookHost._resolve_event_payload]
    rw [if_pos hkey, hsel2]
    show (if (!s.isEmpty) = true then
        (match fs s with
          | none => Except.error PyErr.fileNotFound
          | some text => jp text)
      else Except.ok (JValue.obj m)) = Except.ok v
    rw [hne]
    simp [hfs, hjp]
  · intro hbad
    simp only [HookHost._resolve_event_payload]
    split
    · cases hsel : pyOr (dictGet m "payload_path") (dictGet m "payload-path") with
      | str s =>
        unfold selectedIndirection at hbad
        rw [hsel] at hbad
        have hse : s.isEmpty = true := by simpa [isNonEmptyStr] using hbad
        show (if (!s.isEmpty) = true then
            (match fs s with
              | none => Except.error PyErr.fileNotFound
              | some text => jp text)
          else Except.ok (JValue.obj m)) = Except.ok (JValue.obj m)
        rw [hse]
        rfl
      | null => rfl
      | bool b => rfl
      | int n => rfl
      | arr items => rfl
      | obj entries => rfl
    · rfl

/-- C4 amended, witness: a hyphen-keyed path resolves through the file,
and an empty-string path leaves the envelope unchanged. -/
theorem C4_selected_indirection_rule_witness :
    HookHost._resolve_event_payload c4Parse c4Fs
        (.obj [("payload-path", JValue.str "/x.json")]) = .ok (JValue.int 7)
    ∧ HookHost._resolve_event_payload c4Parse c4Fs
        (.obj [("payload_path", JValue.str "")]) = .ok (.obj [("payload_path", JValue.str "")]) :=
  ⟨(C4_selected_indirection_rule c4Parse c4Fs [("payload-path", JValue.str "/x.json")]).1
      "/x.json" "7" (JValue.int 7) rfl (by decide) rfl rfl,
   (C4_selected_indirection_rule c4Parse c4Fs [("payload_path", JValue.str "")]).2 rfl⟩

/-- C9: when an indirection key is present but every indirection entry
is the empty string, `null`, or not a string, the resolver returns the
envelope itself unchanged (no file access, no failure). -/
theorem C9_bad_indirection_returns_envelope
    (jp : String → Except PyErr JValue) (fs : String → Option String) (m : PyDict)
    (hpresent : hasKey m "payload_path" = true ∨ hasKey m "payload-path" = true)
    (hbad : ∀ kv ∈ m, (kv.fst = "payload_path" ∨ kv.fst = "payload-path") →
        badIndirection kv.snd = true) :
    HookHost._resolve_event_payload jp fs (.obj m) = .ok (.obj m) := by
  have hg : ∀ k, (k = "payload_path" ∨ k = "payload-path") →
      badIndirection (dictGet m k) = true := by
    intro k hk
    unfold dictGet
    cases hfind : m.find? (fun kv => kv.fst == k) with
    | none => rfl
    | some kv =>
      have hmem := List.mem_of_find?_eq_some hfind
      have hfst : kv.fst = k := by simpa using List.find?_some hfind
      exact hbad kv hmem (hfst ▸ hk)
  have hsel : badIndirection (pyOr (dictGet m "payload_path") (dictGet m "payload-path")) = true := by
    unfold pyOr
    split
    · exact hg "payload_path" (Or.inl rfl)
    · exact hg "payload-path" (Or.inr rfl)
  simp only [HookHost._resolve_event_payload]
  rw [if_pos (Bool.or_eq_true _ _ |>.mpr hpresent)]
  cases hv : pyOr (dictGet m "payload_path") (dictGet m "payload-path") with
  | str s =>
    rw [hv] at hsel
    have hse : s.isEmpty = true := by simpa [badIndirection] using hsel
    show (if (!s.isEmpty) = true then
        (match fs s with
          | none => Except.error PyErr.fileNotFound
          | some text => jp text)
      else Except.ok (JValue.obj m)) = Except.ok (JValue.obj m)
    rw [hse]
    rfl
  | null => rfl
  | bool b => rfl
  | int n => rfl
  | arr items => rfl
  | obj entries => rfl

/-- C9 witness: both keys present, values `null` and the empty string. -/
theorem C9_bad_indirection_returns_envelope_witness :
    hasKey c9Env "payload_path" = true ∧
      HookHost._resolve_event_payload failParse emptyFs (.obj c9Env) = .ok (.obj c9Env) :=
  ⟨rfl, C9_bad_indirection_returns_envelope failParse emptyFs c9Env
    (Or.inl rfl) (by decide)⟩

/-- C10: an empty (or absent, with empty stdin) input string is
replaced by the literal text of an empty JSON object before parsing, so
the result is the empty mapping rather than a parse error. -/
theorem C10_empty_input_yields_empty_mapping
    (jp : String → Except PyErr JValue) (fs : String → Option String) (stdin : String)
    (hparse : jp "\x7b\x7d" = .ok (JValue.obj [])) :
    XcodexHooks.read_payload jp fs "" none = .ok (JValue.obj []) ∧
      XcodexHooks.read_payload jp fs stdin (some "") = .ok (JValue.obj []) := by
  constructor <;>
    · simp only [XcodexHooks.read_payload, if_true]
      rw [hparse]
      rfl

/-- C10 witness: with a parser accepting the empty-object text, both
call shapes produce the empty mapping. -/
theorem C10_empty_input_yields_empty_mapping_witness :
    XcodexHooks.read_payload c10Parse emptyFs "" none = .ok (JValue.obj []) ∧
      XcodexHooks.read_payload c10Parse emptyFs "ignored" (some "") = .ok (JValue.obj []) :=
  ⟨(C10_empty_input_yields_empty_mapping c10Parse emptyFs "x" rfl).1,
   (C10_empty_input_yields_empty_mapping c10Parse emptyFs "ignored" rfl).2⟩

/-- C2 (claim refuted on this stream): a hook-event line whose envelope
points at a missing payload file makes the dispatch loop terminate with
the uncaught exception — the second line is never processed and no
success status is returned. -/
theorem C2_resolution_failure_terminates_loop :
    HookHost.main c2Parse emptyFs (fun _ => .ok ()) [c2Line1, c2Line2]
      = .error .fileNotFound := by rfl

/-- C8: three valid hook-event lines and a handler that raises on every
invocation: the handler runs exactly three times, each failure is
caught and reported, and the loop reaches end-of-stream with status 0. -/
theorem C8_handler_failure_isolation
    (jp : String → Except PyErr JValue) (fs : String → Option String)
    (on_event : JValue → Except PyErr Unit) (err : JValue → PyErr)
    (l1 l2 l3 : String) (m1 m2 m3 : PyDict) (e1 e2 e3 : JValue)
    (hhandler : ∀ v, on_event v = .error (err v))
    (h1a : ¬ pyStrip l1 = "") (h1b : jp (pyStrip l1) = .ok (.obj m1))
    (h1c : HookHost.isHookEventMsg m1 = true)
    (h1d : HookHost._resolve_event_payload jp fs (dictGet m1 "event") = .ok e1)
    (h2a : ¬ pyStrip l2 = "") (h2b : jp (pyStrip l2) = .ok (.obj m2))
    (h2c : HookHost.isHookEventMsg m2 = true)
    (h2d : HookHost._resolve_event_payload jp fs (dictGet m2 "event") = .ok e2)
    (h3a : ¬ pyStrip l3 = "") (h3b : jp (pyStrip l3) = .ok (.obj m3))
    (h3c : HookHost.isHookEventMsg m3 = true)
    (h3d : HookHost._resolve_event_payload jp fs (dictGet m3 "event") = .ok e3) :
    HookHost.main jp fs on_event [l1, l2, l3]
      = .ok (⟨[e1, e2, e3],
          [.handlerRaised (err e1), .handlerRaised (err e2), .handlerRaised (err e3)]⟩, 0) := by
  simp [HookHost.main, HookHost.mainLoop, h1a, h1b, h1c, h1d,
    h2a, h2b, h2c, h2d, h3a, h3b, h3c, h3d, hhandler, Except.map]

/-- C8 witness: the three concrete hook-event lines with an
always-raising handler. -/
theorem C8_handler_failure_isolation_witness :
    HookHost.main c8Parse emptyFs (fun _ => .error .valueError) [c8Line1, c8Line2, c8Line3]
      = .ok (⟨[c8Event1, c8Event2, c8Event3],
          [.handlerRaised .valueError, .handlerRaised .valueError, .handlerRaised .valueError]⟩, 0) :=
  C8_handler_failure_isolation c8Parse emptyFs (fun _ => .error .valueError) (fun _ => .valueError)
    c8Line1 c8Line2 c8Line3 _ _ _ c8Event1 c8Event2 c8Event3
    (fun _ => rfl) (by decide) rfl rfl rfl (by decide) rfl rfl rfl (by decide) rfl rfl rfl
